import Mathlib

/-!
Shallow embedding of `scripts/make_confidence_report_spsa.py` from the
cleverhans repository fragment, together with proofs of the specified
properties of the script.

Python strings are modelled as `List Char` (`PyStr`), Python dicts with
string keys as ordered association lists with the Python assignment
semantics (replace in place when the key is present, append otherwise),
Python float literals as exact rationals, and the external collaborators
(`load`, the evaluation oracle behind `correctness_and_confidence`) as
components of an explicit environment.  Exceptions are modelled with
`Except`, and the observable actions of a run (loading the model, the two
evaluation jobs, saving the report) as a trace of events.
-/

namespace CleverhansSpsa

/-- Python strings, modelled as lists of characters. -/
abbrev PyStr := List Char

/-- Python dicts with string keys and integer values, as ordered
association lists (the script only ever stores the four integer range
bounds into `factory.kwargs`). -/
abbrev Dict := List (PyStr × Int)

/-- `d[k] = v` on a Python dict: replace the value at `k` in place when
`k` is present, append `(k, v)` otherwise. -/
def dictSet (d : Dict) (k : PyStr) (v : Int) : Dict :=
  match d with
  | [] => [(k, v)]
  | p :: t => if p.1 = k then (k, v) :: t else p :: dictSet t k v

/-- `d.get(k)` on a Python dict: the value at the first matching key. -/
def dictGet (d : Dict) (k : PyStr) : Option Int :=
  match d with
  | [] => none
  | p :: t => if p.1 = k then some p.2 else dictGet t k

/-- The Python method `s.endswith(suffix)`. -/
def endswith (s suffix : PyStr) : Bool :=
  decide (s.drop (s.length - suffix.length) = suffix)

/-- The Python operator `needle in haystack` on strings: substring containment. -/
def strContains (haystack needle : PyStr) : Bool :=
  match haystack with
  | [] => decide (needle = [])
  | _ :: t => needle.isPrefixOf haystack || strContains t needle

/-- The characters of the literal `.joblib`. -/
def ext_joblib : PyStr := ".joblib".toList

/-- The characters of the literal `_spsa_report.joblib`. -/
def spsa_report_ext : PyStr := "_spsa_report.joblib".toList

/-- The characters of the job name `clean`. -/
def s_clean : PyStr := "clean".toList

/-- The characters of the job name `mc`. -/
def s_mc : PyStr := "mc".toList

/-- The characters of the literal `CIFAR`. -/
def s_CIFAR : PyStr := "CIFAR".toList

/-- The characters of the literal `MNIST`. -/
def s_MNIST : PyStr := "MNIST".toList

/-- The characters of the kwargs key `train_start`. -/
def k_train_start : PyStr := "train_start".toList

/-- The characters of the kwargs key `train_end`. -/
def k_train_end : PyStr := "train_end".toList

/-- The characters of the kwargs key `test_start`. -/
def k_test_start : PyStr := "test_start".toList

/-- The characters of the kwargs key `test_end`. -/
def k_test_end : PyStr := "test_end".toList

/-- The Python identifier `save`. -/
def save_name : String := "save"

/-- Python exceptions raised by the script. -/
inductive PyErr where
  | assertionError : PyErr
  | notImplementedError : PyStr → PyErr
  | nameError : String → PyErr
  | valueError : List PyStr → PyErr
deriving DecidableEq, Repr

/-- The attack-parameter dict `mc_params` built by the script
(`eps`, `nb_iter`, `clip_min`, `clip_max`). -/
structure McParams where
  eps : ℚ
  nb_iter : Int
  clip_min : ℚ
  clip_max : ℚ
deriving DecidableEq, Repr

/-- The record stored under each job name of the report: an array of
per-example correctness booleans and an array of per-example
confidences. -/
structure JobResult where
  correctness : List Bool
  confidence : List ℚ
deriving DecidableEq, Repr

/-- A dataset object as the script uses it: the `center` and `max_val`
entries of `dataset.kwargs`, and the number of examples `get_set`
returns for a split name. -/
structure Dataset where
  center : ℚ
  max_val : ℚ
  num_of_examples : PyStr → Nat

/-- `model.dataset_factory`: `str(factory.cls)`, the keyword-argument
dict, and the construction `factory()` of a dataset from the (possibly
updated) kwargs. -/
structure Factory where
  cls : PyStr
  kwargs : Dict
  build : Dict → Dataset

/-- A loaded model as the script observes it: `len(model.get_params())`
and the attached `dataset_factory`. -/
structure Model where
  numParams : Nat
  dataset_factory : Factory

/-- The external collaborators of the script: `cleverhans.serial.load`,
and the per-example evaluation outcome of
`cleverhans.evaluation.correctness_and_confidence` for a given job name,
attack parameters and example index. -/
structure Env where
  load : PyStr → Model
  oracle : PyStr → Option McParams → Nat → Bool × ℚ

/-- Observable actions of a run of the script. -/
inductive Event where
  | loadModel : PyStr → Event
  | evalJob : PyStr → Option McParams → Event
  | saveReport : PyStr → Event
deriving DecidableEq, Repr

/-- The parameters of `make_confidence_report_spsa`. -/
structure SpsaArgs where
  filepath : PyStr
  train_start : Int
  train_end : Int
  test_start : Int
  test_end : Int
  batch_size : Int
  which_set : PyStr
  report_path : Option PyStr
  nb_iter : Int

/-- What `save(report_path, report)` would persist. -/
structure RunOutput where
  report_path : PyStr
  report : List (PyStr × JobResult)
deriving DecidableEq, Repr

/-- The names bound at module level of the script before
`make_confidence_report_spsa` runs: the four `__future__` feature names,
the imports of lines 31-51, the module-level `FLAGS` binding, and the
two function definitions.  `save` is not among them: the script imports
only `load` from `cleverhans.serial`.  (`save` is not a Python builtin
either.) -/
def module_names : List String :=
  ["absolute_import", "division", "print_function", "unicode_literals",
   "logging", "time", "tf", "flags",
   "MaxConfidence", "SPSA",
   "correctness_and_confidence",
   "load",
   "set_log_level",
   "silence",
   "devices", "print_stats",
   "make_confidence_report",
   "BATCH_SIZE", "TRAIN_START", "TRAIN_END", "TEST_START", "TEST_END",
   "WHICH_SET", "NB_ITER", "REPORT_PATH",
   "FLAGS",
   "make_confidence_report_spsa", "main"]

/-- Python name resolution of an identifier in the global scope of the
module at call time. -/
def bound_in_module (n : String) : Bool :=
  module_names.any (fun m => m == n)

/--
```
if report_path is None:
  assert filepath.endswith(.joblib)
  report_path = filepath[:-len(.joblib)] + _spsa_report.joblib
```
(a slice `s[:-n]` is all but the last `n` characters). -/
def resolve_report_path (report_path : Option PyStr) (filepath : PyStr) :
    Except PyErr PyStr :=
  match report_path with
  | some p => Except.ok p
  | none =>
    if endswith filepath ext_joblib then
      Except.ok (filepath.take (filepath.length - ext_joblib.length) ++ spsa_report_ext)
    else
      Except.error PyErr.assertionError

/--
```
factory.kwargs[train_start] = train_start
factory.kwargs[train_end] = train_end
factory.kwargs[test_start] = test_start
factory.kwargs[test_end] = test_end
```
-/
def set_factory_kwargs (d : Dict) (a : SpsaArgs) : Dict :=
  dictSet (dictSet (dictSet (dictSet d k_train_start a.train_start)
    k_train_end a.train_end) k_test_start a.test_start) k_test_end a.test_end

/--
```
if CIFAR in str(factory.cls):
  base_eps = 8. / 255.
elif MNIST in str(factory.cls):
  base_eps = .3
else:
  raise NotImplementedError(str(factory.cls))
```
(float literals modelled as exact rationals). -/
def base_eps_of (cls : PyStr) : Except PyErr ℚ :=
  if strContains cls s_CIFAR then Except.ok (8 / 255)
  else if strContains cls s_MNIST then Except.ok (3 / 10)
  else Except.error (PyErr.notImplementedError cls)

/-- Modelled from the spec: `correctness_and_confidence` from
`cleverhans.evaluation` is not under `src/`.  Per the spec it returns
a boolean correctness array and a floating-point confidence array, one
entry per evaluated example; the per-example outcome is supplied by the
oracle of the environment. -/
def correctness_and_confidence (oracle : Nat → Bool × ℚ) (n : Nat) : JobResult :=
  { correctness := (List.range n).map (fun i => (oracle i).1),
    confidence := (List.range n).map (fun i => (oracle i).2) }

/-- The `jobs` list of the script, job name paired with the attack
parameters (`None` for the clean job, `mc_params` for the mc job). -/
def jobs (mc_params : McParams) : List (PyStr × Option McParams) :=
  [(s_clean, none), (s_mc, some mc_params)]

/-- The `for job in jobs` loop: evaluate each job over the `n` examples
of the chosen split and store the result under the name of the job. -/
def run_jobs (env : Env) (mc_params : McParams) (n : Nat) :
    List (PyStr × JobResult) :=
  (jobs mc_params).map
    (fun j => (j.1, correctness_and_confidence (env.oracle j.1 j.2) n))

/-- The body of `make_confidence_report_spsa`, returning the trace of
observable events together with the outcome (the saved report, or the
exception raised). -/
def make_confidence_report_spsa (env : Env) (a : SpsaArgs) :
    List Event × Except PyErr RunOutput :=
  match resolve_report_path a.report_path a.filepath with
  | Except.error e => ([], Except.error e)
  | Except.ok report_path =>
    let model := env.load a.filepath
    if 0 < model.numParams then
      let factory := model.dataset_factory
      let dataset := factory.build (set_factory_kwargs factory.kwargs a)
      let center := dataset.center
      let max_val := dataset.max_val
      let value_range := max_val * (1 + center)
      let min_value := 0 - center * max_val
      match base_eps_of factory.cls with
      | Except.error e => ([Event.loadModel a.filepath], Except.error e)
      | Except.ok base_eps =>
        let mc_params : McParams :=
          { eps := base_eps * value_range, nb_iter := a.nb_iter,
            clip_min := min_value, clip_max := max_val }
        let n := dataset.num_of_examples a.which_set
        let report := run_jobs env mc_params n
        let events := [Event.loadModel a.filepath,
                       Event.evalJob s_clean none,
                       Event.evalJob s_mc (some mc_params)]
        if bound_in_module save_name then
          (events ++ [Event.saveReport report_path],
           Except.ok { report_path := report_path, report := report })
        else
          (events, Except.error (PyErr.nameError save_name))
    else ([Event.loadModel a.filepath], Except.error PyErr.assertionError)

/-- Modelled from the spec: the library-defined default `TRAIN_START`
imported from `cleverhans.confidence_report` (not under `src/`); its
concrete value is opaque to this file, represented here by the usual
cleverhans value. -/
def TRAIN_START : Int := 0

/-- Modelled from the spec: the library-defined default `TRAIN_END`
imported from `cleverhans.confidence_report` (not under `src/`). -/
def TRAIN_END : Int := 60000

/-- The command-line flag values as parsed by the surrounding
framework. -/
structure Flags where
  train_start : Int
  train_end : Int
  test_start : Int
  test_end : Int
  nb_iter : Int
  which_set : PyStr
  report_path : Option PyStr
  batch_size : Int

/-- The argument record `main` binds for its call of
`make_confidence_report_spsa`: the call passes `FLAGS.test_start`,
`FLAGS.test_end`, `FLAGS.which_set`, `FLAGS.report_path`,
`FLAGS.nb_iter` and `FLAGS.batch_size`, and no `train_start` or
`train_end`, so those two take the defaults of the function, `TRAIN_START`
and `TRAIN_END`. -/
def main_args (FLAGS : Flags) (filepath : PyStr) : SpsaArgs :=
  { filepath := filepath,
    train_start := TRAIN_START,
    train_end := TRAIN_END,
    test_start := FLAGS.test_start,
    test_end := FLAGS.test_end,
    batch_size := FLAGS.batch_size,
    which_set := FLAGS.which_set,
    report_path := FLAGS.report_path,
    nb_iter := FLAGS.nb_iter }

/--
```
try:
  _name_of_script, filepath = argv
except ValueError:
  raise ValueError(argv)
make_confidence_report_spsa(filepath=filepath, ...)
```
-/
def main (env : Env) (FLAGS : Flags) (argv : List PyStr) :
    List Event × Except PyErr RunOutput :=
  match argv with
  | [_name_of_script, filepath] =>
    make_confidence_report_spsa env (main_args FLAGS filepath)
  | _ => ([], Except.error (PyErr.valueError argv))

/-! ## Derived observers of a run -/

/-- The dataset the run constructs: the factory of the loaded model,
applied to its kwargs after the four range-bound updates. -/
def spsa_dataset (env : Env) (a : SpsaArgs) : Dataset :=
  (env.load a.filepath).dataset_factory.build
    (set_factory_kwargs (env.load a.filepath).dataset_factory.kwargs a)

/-- The `value_range` quantity of the run:
`max_val * (1. + center)`. -/
def spsa_value_range (env : Env) (a : SpsaArgs) : ℚ :=
  (spsa_dataset env a).max_val * (1 + (spsa_dataset env a).center)

/-- The `mc_params` dict the run hands to the MaxConfidence job, for a
given resolved `base_eps`. -/
def spsa_mc_params (env : Env) (a : SpsaArgs) (base_eps : ℚ) : McParams :=
  { eps := base_eps * spsa_value_range env a,
    nb_iter := a.nb_iter,
    clip_min := 0 - (spsa_dataset env a).center * (spsa_dataset env a).max_val,
    clip_max := (spsa_dataset env a).max_val }

/-! ## Concrete fixtures used by witnesses and counterexample runs -/

/-- A concrete dataset: centered data would have `center = 1`; this one
has `center = 0`, `max_val = 1`, two examples in every split. -/
def ds0 : Dataset :=
  { center := 0, max_val := 1, num_of_examples := fun _ => 2 }

/-- A concrete dataset factory of the CIFAR family. -/
def fac0 : Factory :=
  { cls := "cleverhans.dataset.CIFAR10".toList, kwargs := [], build := fun _ => ds0 }

/-- A concrete loaded model with one parameter and the CIFAR factory. -/
def mdl0 : Model :=
  { numParams := 1, dataset_factory := fac0 }

/-- A concrete environment: `load` always yields `mdl0`, every example
is classified correctly with confidence 1. -/
def env0 : Env :=
  { load := fun _ => mdl0, oracle := fun _ _ _ => (true, 1) }

/-- A concrete argument record with the default (absent) report path. -/
def args0 : SpsaArgs :=
  { filepath := "model.joblib".toList,
    train_start := 0, train_end := 1, test_start := 0, test_end := 1,
    batch_size := 8, which_set := "test".toList, report_path := none,
    nb_iter := 40 }

/-- A concrete argument record whose filepath lacks the `.joblib`
extension. -/
def args_bad : SpsaArgs :=
  { filepath := "model.pkl".toList,
    train_start := 0, train_end := 1, test_start := 0, test_end := 1,
    batch_size := 8, which_set := "test".toList, report_path := none,
    nb_iter := 40 }

/-- Concrete parsed flag values, all distinct from the library
defaults. -/
def flags0 : Flags :=
  { train_start := 5, train_end := 6, test_start := 7, test_end := 8,
    nb_iter := 9, which_set := "test".toList, report_path := none,
    batch_size := 10 }

/-- A concrete factory kwargs dict holding an unrelated key and one of
the four range keys. -/
def d_ex : Dict :=
  [("center".toList, 1), ("train_start".toList, 9)]

/-- A concrete attack-parameter record. -/
def p0 : McParams :=
  { eps := 1, nb_iter := 1, clip_min := 0, clip_max := 1 }

/-! ## Helper lemmas -/

/-- Reading back the key just assigned into a dict yields the assigned
value. -/
theorem dictGet_dictSet_same (d : Dict) (k : PyStr) (v : Int) :
    dictGet (dictSet d k v) k = some v := by
  induction d with
  | nil => simp [dictSet, dictGet]
  | cons p t ih =>
    by_cases hp : p.1 = k
    · simp [dictSet, hp, dictGet]
    · simp [dictSet, hp, dictGet, ih]

/-- Assigning one key of a dict leaves every other key unchanged. -/
theorem dictGet_dictSet_other (d : Dict) (k q : PyStr) (v : Int)
    (h : q ≠ k) :
    dictGet (dictSet d k v) q = dictGet d q := by
  induction d with
  | nil => simp [dictSet, dictGet, Ne.symm h]
  | cons p t ih =>
    by_cases hp : p.1 = k
    · simp [dictSet, hp, dictGet, Ne.symm h]
    · by_cases hq : p.1 = q
      · simp [dictSet, hp, dictGet, hq, h]
      · simp [dictSet, hp, dictGet, hq, ih]

/-- The script does not bind the name `save`. -/
theorem save_not_bound : bound_in_module save_name = false := by rfl

/-- Core run shape: when the report path resolves, the model has
parameters and the dataset family is recognized, the run loads the
model, evaluates the clean and mc jobs, and then raises `NameError`
at the unbound `save` call. -/
theorem spsa_run_core (env : Env) (a : SpsaArgs) (rp : PyStr) (be : ℚ)
    (hrp : resolve_report_path a.report_path a.filepath = Except.ok rp)
    (hp : 0 < (env.load a.filepath).numParams)
    (hbe : base_eps_of (env.load a.filepath).dataset_factory.cls = Except.ok be) :
    make_confidence_report_spsa env a =
      ([Event.loadModel a.filepath, Event.evalJob s_clean none,
        Event.evalJob s_mc (some (spsa_mc_params env a be))],
       Except.error (PyErr.nameError save_name)) := by
  simp only [make_confidence_report_spsa, hrp, hp, if_true, hbe,
    save_not_bound, Bool.false_eq_true, if_false,
    spsa_mc_params, spsa_value_range, spsa_dataset]

/-- Core run shape: when the report path resolves and the model has
parameters but the dataset family is not recognized, the run raises the
error produced by the family dispatch right after loading the model. -/
theorem spsa_run_raises (env : Env) (a : SpsaArgs) (rp : PyStr) (e : PyErr)
    (hrp : resolve_report_path a.report_path a.filepath = Except.ok rp)
    (hp : 0 < (env.load a.filepath).numParams)
    (hbe : base_eps_of (env.load a.filepath).dataset_factory.cls = Except.error e) :
    make_confidence_report_spsa env a =
      ([Event.loadModel a.filepath], Except.error e) := by
  simp only [make_confidence_report_spsa, hrp, hp, if_true, hbe]

/-! ## The claims -/

/-- C1: the script is meant to serialize the accumulated report mapping
via the external save routine to the resolved report path; in fact the
name `save` is never imported, so a run that completes both evaluation
jobs raises `NameError` at the terminal save call and never emits a
save action: the concrete CIFAR run below loads the model, runs the
clean and mc jobs, and ends in the `NameError` instead of a
`saveReport` event. -/
theorem spsa_report_is_never_saved :
    make_confidence_report_spsa env0 args0 =
      ([Event.loadModel ("model.joblib".toList),
        Event.evalJob s_clean none,
        Event.evalJob s_mc
          (some { eps := 8 / 255, nb_iter := 40, clip_min := 0, clip_max := 1 })],
       Except.error (PyErr.nameError save_name)) := by
  rw [spsa_run_core env0 args0 ("model_spsa_report.joblib".toList) (8 / 255)
    (by rfl) (by decide) (by rfl)]
  have h : spsa_mc_params env0 args0 (8 / 255) =
      { eps := 8 / 255, nb_iter := 40, clip_min := 0, clip_max := 1 } := by
    simp [spsa_mc_params, spsa_value_range, spsa_dataset, env0, mdl0, fac0, ds0,
      args0, McParams.mk.injEq]
  rw [h]
  rfl

/-- C2: `main` passes the flags `test_start`, `test_end`, `nb_iter`,
`which_set`, `report_path` and `batch_size` through unchanged, but it
never passes `FLAGS.train_start` or `FLAGS.train_end`: those two
parameters always take the library defaults `TRAIN_START` and
`TRAIN_END`, so the `train_start`/`train_end` CLI flags are silently
ignored (here: flag values 5 and 6 are dropped). -/
theorem main_drops_train_range_flags :
    (main_args flags0 args0.filepath).train_start = TRAIN_START ∧
    (main_args flags0 args0.filepath).train_start ≠ flags0.train_start ∧
    (main_args flags0 args0.filepath).train_end = TRAIN_END ∧
    (main_args flags0 args0.filepath).train_end ≠ flags0.train_end ∧
    (main_args flags0 args0.filepath).test_start = flags0.test_start ∧
    (main_args flags0 args0.filepath).test_end = flags0.test_end ∧
    (main_args flags0 args0.filepath).nb_iter = flags0.nb_iter ∧
    (main_args flags0 args0.filepath).which_set = flags0.which_set ∧
    (main_args flags0 args0.filepath).report_path = flags0.report_path ∧
    (main_args flags0 args0.filepath).batch_size = flags0.batch_size ∧
    main env0 flags0 ["script".toList, args0.filepath] =
      make_confidence_report_spsa env0 (main_args flags0 args0.filepath) :=
  ⟨rfl, by decide, rfl, by decide, rfl, rfl, rfl, rfl, rfl, rfl, rfl⟩

/-- C4: invoking `main` with an argument vector of other than exactly
two entries (the script name plus one positional argument) raises
`ValueError` carrying the argument vector. -/
theorem main_wrong_argc_value_error (env : Env) (FLAGS : Flags)
    (argv : List PyStr) (h : argv.length ≠ 2) :
    main env FLAGS argv = ([], Except.error (PyErr.valueError argv)) := by
  match argv with
  | [] => rfl
  | [_] => rfl
  | _ :: _ :: _ :: _ => rfl
  | [a, b] => exact absurd rfl h

/-- Witness for C4 at the empty argument vector. -/
theorem main_wrong_argc_value_error_witness :
    main env0 flags0 [] = ([], Except.error (PyErr.valueError [])) :=
  main_wrong_argc_value_error env0 flags0 [] (by decide)

/-- C5: with no explicit report path, the resolved output path is the
input model path with its trailing `.joblib` suffix replaced by
`_spsa_report.joblib`. -/
theorem default_report_path_replaces_suffix (filepath : PyStr)
    (h : endswith filepath ext_joblib = true) :
    ∃ stem : PyStr, filepath = stem ++ ext_joblib ∧
      resolve_report_path none filepath =
        Except.ok (stem ++ spsa_report_ext) := by
  have hd : filepath.drop (filepath.length - ext_joblib.length) = ext_joblib :=
    of_decide_eq_true h
  refine ⟨filepath.take (filepath.length - ext_joblib.length), ?_, ?_⟩
  · conv_lhs =>
      rw [← List.take_append_drop (filepath.length - ext_joblib.length) filepath]
    rw [hd]
  · simp [resolve_report_path, h]

/-- Witness for C5 at the path `model.joblib`. -/
theorem default_report_path_replaces_suffix_witness :
    ∃ stem : PyStr, "model.joblib".toList = stem ++ ext_joblib ∧
      resolve_report_path none ("model.joblib".toList) =
        Except.ok (stem ++ spsa_report_ext) :=
  default_report_path_replaces_suffix ("model.joblib".toList) (by decide)

/-- C8: with `report_path = None` and a filepath that does not end in
`.joblib`, the run fails with `AssertionError` and its trace is empty,
so in particular the model is never loaded and the default-path
derivation is never completed. -/
theorem missing_joblib_ext_asserts_before_load (env : Env) (a : SpsaArgs)
    (h1 : a.report_path = none)
    (h2 : endswith a.filepath ext_joblib = false) :
    make_confidence_report_spsa env a =
      ([], Except.error PyErr.assertionError) := by
  have hr : resolve_report_path a.report_path a.filepath =
      Except.error PyErr.assertionError := by
    rw [h1]; simp [resolve_report_path, h2]
  unfold make_confidence_report_spsa
  rw [hr]

/-- Witness for C8 at the path `model.pkl`. -/
theorem missing_joblib_ext_asserts_before_load_witness :
    make_confidence_report_spsa env0 args_bad =
      ([], Except.error PyErr.assertionError) :=
  missing_joblib_ext_asserts_before_load env0 args_bad rfl (by decide)

/-- C9: the family dispatch tests `CIFAR` first, so a factory class
name containing both `CIFAR` and `MNIST` selects the CIFAR base epsilon
`8/255` and never the MNIST value `3/10`. -/
theorem cifar_branch_shadows_mnist (cls : PyStr)
    (h1 : strContains cls s_CIFAR = true)
    (h2 : strContains cls s_MNIST = true) :
    base_eps_of cls = Except.ok (8 / 255) ∧
    base_eps_of cls ≠ Except.ok (3 / 10) := by
  constructor
  · simp [base_eps_of, h1]
  · simp only [base_eps_of, h1, if_true]
    intro hc
    have : (8 : ℚ) / 255 = 3 / 10 := Except.ok.inj hc
    norm_num at this

/-- Witness for C9 at a class name containing both substrings. -/
theorem cifar_branch_shadows_mnist_witness :
    base_eps_of ("CIFARMNIST".toList) = Except.ok (8 / 255) ∧
    base_eps_of ("CIFARMNIST".toList) ≠ Except.ok (3 / 10) :=
  cifar_branch_shadows_mnist ("CIFARMNIST".toList) (by decide) (by decide)

/-- C10: the kwargs update overwrites exactly the four range-bound
entries with the given bounds and leaves the value at every other key
unchanged. -/
theorem kwargs_update_exactly_four_keys (d : Dict) (a : SpsaArgs) :
    dictGet (set_factory_kwargs d a) k_train_start = some a.train_start ∧
    dictGet (set_factory_kwargs d a) k_train_end = some a.train_end ∧
    dictGet (set_factory_kwargs d a) k_test_start = some a.test_start ∧
    dictGet (set_factory_kwargs d a) k_test_end = some a.test_end ∧
    ∀ k : PyStr, k ≠ k_train_start → k ≠ k_train_end →
      k ≠ k_test_start → k ≠ k_test_end →
      dictGet (set_factory_kwargs d a) k = dictGet d k := by
  unfold set_factory_kwargs
  refine ⟨?_, ?_, ?_, ?_, ?_⟩
  · rw [dictGet_dictSet_other _ _ _ _ (by decide),
        dictGet_dictSet_other _ _ _ _ (by decide),
        dictGet_dictSet_other _ _ _ _ (by decide),
        dictGet_dictSet_same]
  · rw [dictGet_dictSet_other _ _ _ _ (by decide),
        dictGet_dictSet_other _ _ _ _ (by decide),
        dictGet_dictSet_same]
  · rw [dictGet_dictSet_other _ _ _ _ (by decide),
        dictGet_dictSet_same]
  · rw [dictGet_dictSet_same]
  · intro k h1 h2 h3 h4
    rw [dictGet_dictSet_other _ _ _ _ h4, dictGet_dictSet_other _ _ _ _ h3,
        dictGet_dictSet_other _ _ _ _ h2, dictGet_dictSet_other _ _ _ _ h1]

/-- C3: in a run that reaches the family dispatch, a factory class name
containing `CIFAR` yields a MaxConfidence job whose epsilon is
`8/255 * value_range`; one containing `MNIST` (and not `CIFAR`) yields
epsilon `3/10 * value_range`; any other family makes the run raise
`NotImplementedError` carrying the class name. -/
theorem eps_dispatch_by_dataset_family (env : Env) (a : SpsaArgs) (rp : PyStr)
    (hrp : resolve_report_path a.report_path a.filepath = Except.ok rp)
    (hp : 0 < (env.load a.filepath).numParams) :
    (strContains (env.load a.filepath).dataset_factory.cls s_CIFAR = true →
      ∃ p : McParams,
        Event.evalJob s_mc (some p) ∈ (make_confidence_report_spsa env a).1 ∧
        p.eps = 8 / 255 * spsa_value_range env a) ∧
    (strContains (env.load a.filepath).dataset_factory.cls s_CIFAR = false →
     strContains (env.load a.filepath).dataset_factory.cls s_MNIST = true →
      ∃ p : McParams,
        Event.evalJob s_mc (some p) ∈ (make_confidence_report_spsa env a).1 ∧
        p.eps = 3 / 10 * spsa_value_range env a) ∧
    (strContains (env.load a.filepath).dataset_factory.cls s_CIFAR = false →
     strContains (env.load a.filepath).dataset_factory.cls s_MNIST = false →
      (make_confidence_report_spsa env a).2 =
        Except.error
          (PyErr.notImplementedError (env.load a.filepath).dataset_factory.cls)) := by
  refine ⟨?_, ?_, ?_⟩
  · intro hC
    have hbe : base_eps_of (env.load a.filepath).dataset_factory.cls =
        Except.ok (8 / 255) := by
      simp [base_eps_of, hC]
    refine ⟨spsa_mc_params env a (8 / 255), ?_, rfl⟩
    rw [spsa_run_core env a rp (8 / 255) hrp hp hbe]
    simp
  · intro hC hM
    have hbe : base_eps_of (env.load a.filepath).dataset_factory.cls =
        Except.ok (3 / 10) := by
      simp [base_eps_of, hC, hM]
    refine ⟨spsa_mc_params env a (3 / 10), ?_, rfl⟩
    rw [spsa_run_core env a rp (3 / 10) hrp hp hbe]
    simp
  · intro hC hM
    have hbe : base_eps_of (env.load a.filepath).dataset_factory.cls =
        Except.error
          (PyErr.notImplementedError (env.load a.filepath).dataset_factory.cls) := by
      simp [base_eps_of, hC, hM]
    rw [spsa_run_raises env a rp _ hrp hp hbe]

/-- Witness for C3: the CIFAR branch of the dispatch at the concrete
CIFAR fixture. -/
theorem eps_dispatch_by_dataset_family_witness :
    ∃ p : McParams,
      Event.evalJob s_mc (some p) ∈ (make_confidence_report_spsa env0 args0).1 ∧
      p.eps = 8 / 255 * spsa_value_range env0 args0 :=
  (eps_dispatch_by_dataset_family env0 args0
      ("model_spsa_report.joblib".toList) (by rfl) (by decide)).1 (by decide)

/-- C6: in a run whose dataset family is recognized, the MaxConfidence
job receives `clip_min = -center * max_val` (the `min_value` quantity),
`clip_max = max_val`, and an epsilon scaled by
`value_range = max_val * (1 + center)`, where `center` and `max_val`
are the metadata of the constructed dataset. -/
theorem clip_bounds_from_dataset_metadata (env : Env) (a : SpsaArgs)
    (rp : PyStr) (be : ℚ)
    (hrp : resolve_report_path a.report_path a.filepath = Except.ok rp)
    (hp : 0 < (env.load a.filepath).numParams)
    (hbe : base_eps_of (env.load a.filepath).dataset_factory.cls = Except.ok be) :
    ∃ p : McParams,
      Event.evalJob s_mc (some p) ∈ (make_confidence_report_spsa env a).1 ∧
      p.eps = be * ((spsa_dataset env a).max_val * (1 + (spsa_dataset env a).center)) ∧
      p.clip_min = -((spsa_dataset env a).center * (spsa_dataset env a).max_val) ∧
      p.clip_max = (spsa_dataset env a).max_val := by
  refine ⟨spsa_mc_params env a be, ?_, rfl, ?_, rfl⟩
  · rw [spsa_run_core env a rp be hrp hp hbe]
    simp
  · show 0 - (spsa_dataset env a).center * (spsa_dataset env a).max_val = _
    rw [zero_sub]

/-- Witness for C6 at the concrete CIFAR fixture. -/
theorem clip_bounds_from_dataset_metadata_witness :
    ∃ p : McParams,
      Event.evalJob s_mc (some p) ∈ (make_confidence_report_spsa env0 args0).1 ∧
      p.eps = 8 / 255 *
        ((spsa_dataset env0 args0).max_val * (1 + (spsa_dataset env0 args0).center)) ∧
      p.clip_min = -((spsa_dataset env0 args0).center * (spsa_dataset env0 args0).max_val) ∧
      p.clip_max = (spsa_dataset env0 args0).max_val :=
  clip_bounds_from_dataset_metadata env0 args0
    ("model_spsa_report.joblib".toList) (8 / 255) (by rfl) (by decide) (by rfl)

/-- C7: the report built by the job loop has exactly the two keys
`clean` and `mc`, in that order, and each entry holds a correctness
array and a confidence array whose lengths both equal the number of
evaluated examples. -/
theorem report_keys_and_array_lengths (env : Env) (mc_params : McParams)
    (n : Nat) :
    (run_jobs env mc_params n).map Prod.fst = [s_clean, s_mc] ∧
    ∀ e ∈ run_jobs env mc_params n,
      e.2.correctness.length = n ∧ e.2.confidence.length = n := by
  constructor
  · rfl
  · intro e he
    simp only [run_jobs, jobs, List.map_cons, List.map_nil, List.mem_cons,
      List.not_mem_nil, or_false] at he
    rcases he with rfl | rfl <;>
      simp [correctness_and_confidence]

/-- Witness for C7: the clean entry of a concrete two-example run. -/
theorem report_keys_and_array_lengths_witness :
    (s_clean, correctness_and_confidence (env0.oracle s_clean none) 2).2.correctness.length = 2 ∧
    (s_clean, correctness_and_confidence (env0.oracle s_clean none) 2).2.confidence.length = 2 :=
  (report_keys_and_array_lengths env0 p0 2).2
    (s_clean, correctness_and_confidence (env0.oracle s_clean none) 2)
    (by simp [run_jobs, jobs])

/-- Witness for C10: the unrelated key `center` keeps its value through
the update. -/
theorem kwargs_update_exactly_four_keys_witness :
    dictGet (set_factory_kwargs d_ex args0) ("center".toList) =
      dictGet d_ex ("center".toList) :=
  (kwargs_update_exactly_four_keys d_ex args0).2.2.2.2 ("center".toList)
    (by decide) (by decide) (by decide) (by decide)

end CleverhansSpsa
